import Mathlib

/-!
Shallow embedding of `src/connectionInfo/connection.ts` of the
VS-Code-LiveServer-V2-Extension repository: the `Connection` class, the
`serverPortAttributesProvider` class and the `Server` orchestrator class,
together with theorems about the behaviour the specification describes.

Paths and JavaScript strings manipulated character-wise are embedded as
`List Char` (abbreviated `Str`); hosts, which are only compared for
equality, stay `String`.
-/

namespace LiveServer

/-- JavaScript strings embedded as character lists. -/
abbrev Str := List Char

/-- JavaScript truthiness of a `string | undefined` value: `undefined` and the
empty string are falsy, every other string is truthy. -/
def truthyStr : Option Str → Bool
  | none => false
  | some s => !s.isEmpty

/-- Character-level backslash-to-forward-slash replacement. -/
def posixChar (c : Char) : Char := if c = '\\' then '/' else c

/-- The inline `path.substr(...).replace(/\\/gi, '/')` normalization used by
`Server.getFileRelativeToWorkspace`. -/
def toPosixSlashes (s : Str) : Str := s.map posixChar

/-- Modelled from the spec: `PathUtil.ConvertToPosixPath` lives in
`src/utils/pathUtil.ts`, which is not part of the sources here.  The spec says
the returned suffix is POSIX-normalized, i.e. backslashes become forward
slashes. -/
def convertToPosixPath (s : Str) : Str := s.map posixChar

/-- Modelled from the spec: `PathUtil.PathBeginsWith` lives in
`src/utils/pathUtil.ts`, which is not part of the sources here.  The spec
requires a path-segment-aware prefix test: a path is inside a root when it is
the root itself or extends the root at a `/` segment boundary, so `/a/bc` is
not inside `/a/b`. -/
def pathBeginsWith (p root : Str) : Bool :=
  let r := if root.getLast? = some '/' then root else root ++ ['/']
  p == root || r.isPrefixOf p

namespace Connection

/-- Embeds `Connection._absPathInWorkspace`: `this.rootPath ? PathUtil.PathBeginsWith(path, this.rootPath) : false`. -/
def absPathInWorkspace (rootPath : Option Str) (p : Str) : Bool :=
  match rootPath with
  | some r => if r.isEmpty then false else pathBeginsWith p r
  | none => false

/-- Embeds `Connection.getFileRelativeToWorkspace`: returns the POSIX-converted suffix
after the workspace root when the root is truthy and the path is inside it,
`undefined` otherwise. -/
def getFileRelativeToWorkspace (rootPath : Option Str) (p : Str) : Option Str :=
  if truthyStr rootPath && absPathInWorkspace rootPath p then
    some (convertToPosixPath (p.drop (rootPath.getD []).length))
  else
    none

end Connection

/-- Modelled from the spec: `DEFAULT_HOST` lives in `src/utils/constants.ts`,
which is not part of the sources here; the spec says the host defaults to a
loopback default host. -/
def DEFAULT_HOST : String := "127.0.0.1"

/-- Observable outcome of one `Connection.resetHostToDefault()` call: the host
afterwards, whether `_onShouldResetInitHost` fired, and whether the error
message was shown. -/
structure ResetOutcome where
  host : String
  firedShouldResetInitHost : Bool
  showedErrorMessage : Bool
deriving DecidableEq, Repr

namespace Connection

/-- Embeds `Connection.resetHostToDefault`: when the host differs from the default it
shows an error message, sets the host to the default and fires
`_onShouldResetInitHost`; otherwise it does nothing. -/
def resetHostToDefault (host : String) : ResetOutcome :=
  if host ≠ DEFAULT_HOST then
    { host := DEFAULT_HOST, firedShouldResetInitHost := true, showedErrorMessage := true }
  else
    { host := host, firedShouldResetInitHost := false, showedErrorMessage := false }

/-- Number of `_onShouldResetInitHost` notifications fired by two consecutive
`resetHostToDefault()` calls starting from host `h`. -/
def resetHostTwiceNotifications (h : String) : Nat :=
  let r1 := resetHostToDefault h
  let r2 := resetHostToDefault r1.host
  (if r1.firedShouldResetInitHost then 1 else 0) +
    (if r2.firedShouldResetInitHost then 1 else 0)

/-- Number of actual host changes across two consecutive `resetHostToDefault()`
calls starting from host `h`. -/
def resetHostTwiceHostChanges (h : String) : Nat :=
  let r1 := resetHostToDefault h
  let r2 := resetHostToDefault r1.host
  (if r1.host ≠ h then 1 else 0) + (if r2.host ≠ r1.host then 1 else 0)

end Connection

/-- The `vscode.PortAutoForwardAction` values as used here: only `Silent` occurs. -/
inductive PortAutoForwardAction
  | Silent
deriving DecidableEq, Repr

/-- Mutable state of `serverPortAttributesProvider`: both ports are initialized
to `0` at construction. -/
structure PortAttrState where
  wsPort : Int
  httpPort : Int
deriving DecidableEq, Repr

/-- The field initializers `public wsPort = 0; public httpPort = 0`. -/
def initPortAttrState : PortAttrState := { wsPort := 0, httpPort := 0 }

/-- Embeds `serverPortAttributesProvider.providePortAttributes`: `Silent` when the
queried port equals the stored ws or http port, `undefined` otherwise. -/
def providePortAttributes (st : PortAttrState) (port : Int) :
    Option PortAutoForwardAction :=
  if port == st.wsPort || port == st.httpPort then
    some PortAutoForwardAction.Silent
  else
    none

/-- Modelled from the spec: the `AutoRefreshPreview` enumeration of
`src/utils/settingsUtil.ts` is not part of the sources here; the spec lists
the auto-refresh policies `off | onSave | onAnyChange`. -/
inductive AutoRefreshPreview
  | onAnyChange
  | onSave
  | off
deriving DecidableEq, Repr

namespace Server

/-- Embeds `Server._reloadOnAnyChange`: the configured policy equals `onAnyChange`.
The getter re-reads the configuration on each access, so it takes the current
configuration value as an argument. -/
def reloadOnAnyChange (cfg : AutoRefreshPreview) : Bool :=
  cfg == AutoRefreshPreview.onAnyChange

/-- Embeds `Server._reloadOnSave`: the configured policy equals `onSave`. -/
def reloadOnSave (cfg : AutoRefreshPreview) : Bool :=
  cfg == AutoRefreshPreview.onSave

end Server

/-- A `vscode.TextDocumentChangeEvent` as far as the `Server` inspects it: only
the content-change list matters, and of it only emptiness. -/
structure TextDocumentChangeEvent where
  contentChanges : List Unit
deriving DecidableEq, Repr

namespace Server

/-- The body of the `onDidChangeTextDocument` handler the constructor
registers: one `refreshBrowsers()` call when the event has non-empty content
changes and the policy is on-any-change, none otherwise. -/
def docChangeHandler (cfg : AutoRefreshPreview) (e : TextDocumentChangeEvent) : Nat :=
  if e.contentChanges.length > 0 && reloadOnAnyChange cfg then 1 else 0

/-- The `onDidChangeTextDocument` registrations made by the `Server`
constructor: it contains two `this._register(vscode.workspace.onDidChangeTextDocument(...))`
blocks with identical bodies, so the same handler is registered twice. -/
def registeredDocChangeHandlers (cfg : AutoRefreshPreview) :
    List (TextDocumentChangeEvent → Nat) :=
  [docChangeHandler cfg, docChangeHandler cfg]

/-- Total number of `WsServer.refreshBrowsers()` calls a single
`onDidChangeTextDocument` event produces under configuration `cfg`. -/
def refreshBroadcastsForDocChange (cfg : AutoRefreshPreview)
    (e : TextDocumentChangeEvent) : Nat :=
  (registeredDocChangeHandlers cfg).foldl (fun n h => n + h e) 0

/-- Embeds `Server.canGetPath`: `this._workspacePath ? path.startsWith(this._workspacePath) : false`. -/
def canGetPath (ws : Option Str) (p : Str) : Bool :=
  match ws with
  | some w => if w.isEmpty then false else w.isPrefixOf p
  | none => false

/-- Embeds `Server.getFileRelativeToWorkspace`: the suffix after the workspace path
with backslashes replaced by forward slashes when the workspace path is truthy
and a string prefix of `path`, empty string otherwise. -/
def getFileRelativeToWorkspace (ws : Option Str) (p : Str) : Str :=
  match ws with
  | some w => if !w.isEmpty && w.isPrefixOf p then toPosixSlashes (p.drop w.length) else []
  | none => []

/-- Number of warning messages the `Server` constructor shows: exactly one
`showWarningMessage` call when `!this._workspacePath`, none otherwise. -/
def constructorWarningCount (ws : Option Str) : Nat :=
  if truthyStr ws then 0 else 1

end Server

/-- A `vscode.Uri`, abstracted to its textual form; the `Server` only stores
and truth-tests its `_extensionUri`. -/
structure Uri where
  fsPath : String
deriving DecidableEq, Repr

/-- Calls the `Server` makes into its sub-servers, in order. -/
inductive Action
  | setInjectorWSPort (port : Nat)
  | startHttp (port : Nat)
  | startWs (port : Nat)
deriving DecidableEq, Repr

/-- The `PortInfo` interface: both fields optional. -/
structure PortInfo where
  port : Option Nat
  ws_port : Option Nat
deriving DecidableEq, Repr

/-- Observable state of a `Server` instance together with the state the
sub-servers expose to it. `injectorWSPort` is the value most recently passed
to `HttpServer.setInjectorWSPort`; `wsStartPort` is the port most recently
passed to `WSServer.start`; `fullyConnectedFires` counts `_onFullyConnected`
emissions. -/
structure ServerState where
  extensionUri : Option Uri
  workspacePath : Option Str
  isServerOn : Bool
  httpPort : Nat
  injectorWSPort : Option Nat
  httpStarted : Bool
  wsStarted : Bool
  wsStartPort : Option Nat
  fullyConnectedFires : Nat
deriving DecidableEq, Repr

namespace Server

/-- The `Server` constructor: `_extensionUri` is a readonly field assigned from
the non-optional `extensionUri` parameter, `_isServerOn` starts false, no
sub-server has been started and `_onFullyConnected` has not fired. -/
def construct (uri : Uri) (ws : Option Str) : ServerState :=
  { extensionUri := some uri
    workspacePath := ws
    isServerOn := false
    httpPort := 0
    injectorWSPort := none
    httpStarted := false
    wsStarted := false
    wsStartPort := none
    fullyConnectedFires := 0 }

/-- Embeds `Server.openServer`: when `this._extensionUri` is truthy it first calls
`setInjectorWSPort(port + 1)`, then `HttpServer.start(port, ...)` and returns
true; otherwise it returns false having done nothing.  The returned list
records the sub-server calls in the order they are made. -/
def openServer (s : ServerState) (port : Nat) : Bool × ServerState × List Action :=
  match s.extensionUri with
  | some _ =>
      (true,
        { s with injectorWSPort := some (port + 1), httpStarted := true },
        [Action.setInjectorWSPort (port + 1), Action.startHttp port])
  | none => (false, s, [])

/-- The `onPortChange` subscription made in the constructor:
`if (e.ws_port) { this._httpServer.setInjectorWSPort(e.ws_port); }` — JavaScript
truthiness means `undefined` and `0` do not propagate. -/
def onPortChangeHandler (s : ServerState) (e : PortInfo) : ServerState :=
  match e.ws_port with
  | some p => if p = 0 then s else { s with injectorWSPort := some p }
  | none => s

end Server

/-- Bound-port reports arriving from the sub-servers' `onConnected` events. -/
inductive ServerEvent
  | httpConnected (port : Nat)
  | wsConnected (port : Nat)
deriving DecidableEq, Repr

namespace Server

/-- One sub-server `onConnected` report, as handled by the constructor's
subscriptions: an HTTP report fires `_onPortChangeEmitter` with `{ port: e }`
and then `httpServerConnected()` (which starts the WS server on
`this._httpServer.port + 1`); a WS report fires the emitter with
`{ ws_port: e }` (whose handler updates the injector port) and then
`wsServerConnected()` (which sets `_isServerOn` and fires
`_onFullyConnected`). -/
def step (s : ServerState) (ev : ServerEvent) : ServerState :=
  match ev with
  | ServerEvent.httpConnected p =>
      let s1 := { s with httpPort := p }
      let s2 := onPortChangeHandler s1 { port := some p, ws_port := none }
      { s2 with wsStarted := true, wsStartPort := some (s2.httpPort + 1) }
  | ServerEvent.wsConnected p =>
      let s1 := onPortChangeHandler s { port := none, ws_port := some p }
      { s1 with isServerOn := true, fullyConnectedFires := s1.fullyConnectedFires + 1 }

/-- Run a sequence of sub-server reports through the `Server`'s handlers. -/
def run (s : ServerState) (tr : List ServerEvent) : ServerState :=
  tr.foldl step s

/-- Whether an event is a WS-server bound report. -/
def isWsConnectedEvent : ServerEvent → Bool
  | ServerEvent.wsConnected _ => true
  | ServerEvent.httpConnected _ => false

/-- Whether an event is an HTTP-server bound report. -/
def isHttpConnectedEvent : ServerEvent → Bool
  | ServerEvent.httpConnected _ => true
  | ServerEvent.wsConnected _ => false

/-- Environment constraint on report sequences: a sub-server reports a bind
only after its `start` was called, and the `Server` starts the WS server only
inside the HTTP `onConnected` handler.  `started` carries whether the WS
server has been started before the sequence begins. -/
def wfFrom : Bool → List ServerEvent → Bool
  | _, [] => true
  | _, ServerEvent.httpConnected _ :: rest => wfFrom true rest
  | started, ServerEvent.wsConnected _ :: rest => started && wfFrom started rest

end Server

/-! ## Theorems -/

/-- Claim C9: `providePortAttributes` returns a `Silent` classification if and
only if the queried port equals the stored `httpPort` or `wsPort`, and returns
`undefined` otherwise; since both stored ports are initialized to `0`, a query
for port `0` before any port assignment returns `Silent` rather than
`undefined`. -/
theorem providePortAttributes_silent_iff :
    (∀ (st : PortAttrState) (port : Int),
        providePortAttributes st port = some PortAutoForwardAction.Silent ↔
          (port = st.wsPort ∨ port = st.httpPort))
    ∧ (∀ (st : PortAttrState) (port : Int),
        providePortAttributes st port = none ↔
          ¬(port = st.wsPort ∨ port = st.httpPort))
    ∧ providePortAttributes initPortAttrState 0 = some PortAutoForwardAction.Silent := by
  refine ⟨fun st port => ?_, fun st port => ?_, rfl⟩ <;>
    · unfold providePortAttributes
      split
      next hc => simp_all
      next hc => simp_all

/-- Claim C8: the no-extension-context failure branch of `openServer` is
unreachable — `_extensionUri` is a readonly field assigned in the `Server`
constructor, so for every `Server` constructed through its constructor,
`openServer(port)` returns true for every port. -/
theorem openServer_always_true_for_constructed :
    ∀ (uri : Uri) (ws : Option Str) (port : Nat),
      (Server.openServer (Server.construct uri ws) port).1 = true := by
  intro uri ws port
  rfl

/-- Claim C6: `Server.openServer(port)` returns false if and only if no
extension context is available; otherwise it first sets the HTTP server's
injector WS port to `port + 1` and only then starts the HTTP server on `port`,
returning true. -/
theorem openServer_contract :
    ∀ (s : ServerState) (port : Nat),
      ((Server.openServer s port).1 = false ↔ s.extensionUri = none)
      ∧ (s.extensionUri ≠ none →
          (Server.openServer s port).2.2 =
            [Action.setInjectorWSPort (port + 1), Action.startHttp port]) := by
  intro s port
  cases h : s.extensionUri <;> simp [Server.openServer, h]

/-- Witness for `openServer_contract` at a concrete constructed server and
port 3000. -/
theorem openServer_contract_witness :
    ((Server.openServer (Server.construct { fsPath := "ext" } none) 3000).1 = false ↔
        (Server.construct { fsPath := "ext" } none).extensionUri = none)
    ∧ (Server.openServer (Server.construct { fsPath := "ext" } none) 3000).2.2 =
        [Action.setInjectorWSPort 3001, Action.startHttp 3000] := by
  have h := openServer_contract (Server.construct { fsPath := "ext" } none) 3000
  exact ⟨h.1, h.2 (by decide)⟩

/-- Claim C2: whenever the WS sub-server reports its actually-bound port (a
TCP bound port, hence nonzero), the `Server` propagates exactly that port into
the HTTP server's content injector via `setInjectorWSPort`. -/
theorem wsConnected_propagates_injector_port :
    ∀ (s : ServerState) (p : Nat), p ≠ 0 →
      (Server.step s (ServerEvent.wsConnected p)).injectorWSPort = some p := by
  intro s p hp
  simp [Server.step, Server.onPortChangeHandler, hp]

/-- Witness for `wsConnected_propagates_injector_port` at port 8082. -/
theorem wsConnected_propagates_injector_port_witness :
    (Server.step (Server.construct { fsPath := "ext" } none)
        (ServerEvent.wsConnected 8082)).injectorWSPort = some 8082 :=
  wsConnected_propagates_injector_port _ 8082 (by decide)

/-- Counterexample to claim C4 as stated: starting from the default host,
calling `resetHostToDefault()` twice produces zero host changes and zero
notifications, not exactly one of each. -/
theorem resetHostToDefault_default_start_counterexample :
    ¬(Connection.resetHostTwiceHostChanges DEFAULT_HOST = 1 ∧
      Connection.resetHostTwiceNotifications DEFAULT_HOST = 1) := by
  decide

/-- Claim C4 (amended): two consecutive `resetHostToDefault()` calls produce
exactly one host change and one `onShouldResetInitHost` notification when the
starting host is not the default, and none when the host already is the
default; in all cases the second call is a no-op (it changes nothing and fires
no notification). -/
theorem resetHostToDefault_idempotent_amended :
    ∀ h : String,
      (h ≠ DEFAULT_HOST →
        Connection.resetHostTwiceHostChanges h = 1 ∧
        Connection.resetHostTwiceNotifications h = 1)
      ∧ (h = DEFAULT_HOST →
        Connection.resetHostTwiceHostChanges h = 0 ∧
        Connection.resetHostTwiceNotifications h = 0)
      ∧ (Connection.resetHostToDefault
          (Connection.resetHostToDefault h).host).firedShouldResetInitHost = false
      ∧ (Connection.resetHostToDefault (Connection.resetHostToDefault h).host).host =
          (Connection.resetHostToDefault h).host := by
  intro h
  by_cases hd : h = DEFAULT_HOST
  · subst hd
    refine ⟨fun hne => absurd rfl hne, fun _ => ?_, ?_, ?_⟩ <;>
      simp [Connection.resetHostTwiceHostChanges, Connection.resetHostTwiceNotifications,
        Connection.resetHostToDefault]
  · have hd' : DEFAULT_HOST ≠ h := Ne.symm hd
    refine ⟨fun _ => ?_, fun he => absurd he hd, ?_, ?_⟩ <;>
      simp [Connection.resetHostTwiceHostChanges, Connection.resetHostTwiceNotifications,
        Connection.resetHostToDefault, hd, hd']

/-- Witness for `resetHostToDefault_idempotent_amended` starting from the
non-default host `0.0.0.0`. -/
theorem resetHostToDefault_idempotent_witness :
    Connection.resetHostTwiceHostChanges "0.0.0.0" = 1 ∧
    Connection.resetHostTwiceNotifications "0.0.0.0" = 1 :=
  (resetHostToDefault_idempotent_amended "0.0.0.0").1 (by decide)

/-- Claim C7: with no workspace path known, the `Server` still constructs and
can start — `canGetPath p` is false and `getFileRelativeToWorkspace p` is the
empty string for every path `p`, the constructor surfaces exactly one warning
message, and `openServer` still succeeds. -/
theorem no_workspace_degrades_gracefully :
    ∀ (p : Str) (uri : Uri) (port : Nat),
      Server.canGetPath none p = false
      ∧ Server.getFileRelativeToWorkspace none p = []
      ∧ Server.constructorWarningCount none = 1
      ∧ (Server.openServer (Server.construct uri none) port).1 = true := by
  intro p uri port
  exact ⟨rfl, rfl, rfl, rfl⟩

/-- The `onPortChange` handler never touches `_onFullyConnected`. -/
theorem onPortChangeHandler_fires (s : ServerState) (e : PortInfo) :
    (Server.onPortChangeHandler s e).fullyConnectedFires = s.fullyConnectedFires := by
  obtain ⟨po, wp⟩ := e
  cases wp with
  | none => rfl
  | some p => by_cases hp : p = 0 <;> simp [Server.onPortChangeHandler, hp]

/-- The `onPortChange` handler never touches `_isServerOn`. -/
theorem onPortChangeHandler_isOn (s : ServerState) (e : PortInfo) :
    (Server.onPortChangeHandler s e).isServerOn = s.isServerOn := by
  obtain ⟨po, wp⟩ := e
  cases wp with
  | none => rfl
  | some p => by_cases hp : p = 0 <;> simp [Server.onPortChangeHandler, hp]

/-- Across any report sequence, `_onFullyConnected` fires once per WS-server
bound report. -/
theorem run_fires (tr : List ServerEvent) :
    ∀ s : ServerState,
      (Server.run s tr).fullyConnectedFires =
        s.fullyConnectedFires + tr.countP Server.isWsConnectedEvent := by
  induction tr with
  | nil => intro s; simp [Server.run]
  | cons e rest ih =>
    intro s
    rw [show Server.run s (e :: rest) = Server.run (Server.step s e) rest from rfl, ih]
    cases e with
    | httpConnected p =>
        simp [Server.step, onPortChangeHandler_fires, Server.isWsConnectedEvent,
          List.countP_cons]
    | wsConnected p =>
        simp [Server.step, onPortChangeHandler_fires, Server.isWsConnectedEvent,
          List.countP_cons]
        omega

/-- Across any report sequence, `_isServerOn` is set exactly by WS-server
bound reports. -/
theorem run_isOn (tr : List ServerEvent) :
    ∀ s : ServerState,
      (Server.run s tr).isServerOn =
        (s.isServerOn || tr.any Server.isWsConnectedEvent) := by
  induction tr with
  | nil => intro s; simp [Server.run]
  | cons e rest ih =>
    intro s
    rw [show Server.run s (e :: rest) = Server.run (Server.step s e) rest from rfl, ih]
    cases e with
    | httpConnected p =>
        simp [Server.step, onPortChangeHandler_isOn, Server.isWsConnectedEvent]
    | wsConnected p => simp [Server.step, Server.isWsConnectedEvent]

/-- In a well-formed report sequence starting with the WS server not yet
started, a WS bound report can only occur when an HTTP bound report occurred. -/
theorem any_http_of_any_ws (tr : List ServerEvent) :
    Server.wfFrom false tr = true → tr.any Server.isWsConnectedEvent = true →
      tr.any Server.isHttpConnectedEvent = true := by
  induction tr with
  | nil => intro _ h; simp at h
  | cons e rest ih =>
    cases e with
    | httpConnected p => intro _ _; simp [Server.isHttpConnectedEvent]
    | wsConnected p =>
        intro hwf _
        simp [Server.wfFrom] at hwf

/-- Claim C5: per successful `openServer` call, `onFullyConnected` fires
exactly once — once per WS bound report, of which a successful open produces
one — and `isServerOn` becomes true exactly when a WS bound report has been
handled, which in a well-formed sequence can only happen after the HTTP bound
report; so neither happens before both sub-servers have reported a bind. -/
theorem onFullyConnected_once_after_both_binds :
    ∀ (s : ServerState) (tr : List ServerEvent),
      s.wsStarted = false → s.isServerOn = false → s.fullyConnectedFires = 0 →
      Server.wfFrom s.wsStarted tr = true →
      (Server.run s tr).fullyConnectedFires = tr.countP Server.isWsConnectedEvent
      ∧ ((Server.run s tr).isServerOn = true ↔ tr.any Server.isWsConnectedEvent = true)
      ∧ (tr.any Server.isWsConnectedEvent = true →
          tr.any Server.isHttpConnectedEvent = true) := by
  intro s tr hws hOn hF hwf
  rw [hws] at hwf
  refine ⟨?_, ?_, any_http_of_any_ws tr hwf⟩
  · rw [run_fires tr s, hF]
    simp
  · rw [run_isOn tr s, hOn]
    simp

/-- Witness for `onFullyConnected_once_after_both_binds` on the report
sequence of one successful open: HTTP binds on 3000, then WS binds on 3001. -/
theorem onFullyConnected_once_after_both_binds_witness :
    (Server.run (Server.construct { fsPath := "ext" } none)
        [ServerEvent.httpConnected 3000, ServerEvent.wsConnected 3001]).fullyConnectedFires = 1
    ∧ (Server.run (Server.construct { fsPath := "ext" } none)
        [ServerEvent.httpConnected 3000, ServerEvent.wsConnected 3001]).isServerOn = true := by
  have h := onFullyConnected_once_after_both_binds
    (Server.construct { fsPath := "ext" } none)
    [ServerEvent.httpConnected 3000, ServerEvent.wsConnected 3001] rfl rfl rfl (by decide)
  refine ⟨?_, h.2.1.mpr (by decide)⟩
  rw [h.1]
  rfl

/-- Counterexample to claim C10 as stated: at `p` equal to the workspace path
itself, `canGetPath p` is true while `getFileRelativeToWorkspace p` is the
empty string, so `canGetPath p = false` is not equivalent to the disjunction
the claim asserts. -/
theorem canGetPath_agreement_counterexample :
    ¬(Server.canGetPath (some ['/', 'a']) ['/', 'a'] = false ↔
      (Server.getFileRelativeToWorkspace (some ['/', 'a']) ['/', 'a'] = [] ∨
        (some ['/', 'a'] : Option Str) = some ['/', 'a'])) := by
  decide

/-- Claim C10 (amended): `getFileRelativeToWorkspace p` returns the empty
string exactly when `canGetPath p` is false or `p` equals the workspace path
itself; in particular `canGetPath p = false` implies
`getFileRelativeToWorkspace p = ''`. -/
theorem getFileRelativeToWorkspace_empty_iff :
    ∀ (ws : Option Str) (p : Str),
      Server.getFileRelativeToWorkspace ws p = [] ↔
        (Server.canGetPath ws p = false ∨ ws = some p) := by
  intro ws p
  cases ws with
  | none => simp [Server.getFileRelativeToWorkspace, Server.canGetPath]
  | some w =>
    by_cases hw : w.isEmpty
    · simp [Server.getFileRelativeToWorkspace, Server.canGetPath, hw]
    · by_cases hpre : w.isPrefixOf p
      · have hpre' : w <+: p := by simpa using hpre
        obtain ⟨t, rfl⟩ := hpre'
        simp [Server.getFileRelativeToWorkspace, Server.canGetPath, hw, hpre,
          toPosixSlashes, List.drop_left]
      · simp [Server.getFileRelativeToWorkspace, Server.canGetPath, hw, hpre]

/-- A list is a `isPrefixOf`-prefix of itself extended by anything. -/
theorem isPrefixOf_append_self (l t : Str) : l.isPrefixOf (l ++ t) = true := by
  simp

/-- A true `isPrefixOf` gives an explicit decomposition. -/
theorem exists_append_of_isPrefixOf (r p : Str) (h : r.isPrefixOf p = true) :
    ∃ t, p = r ++ t := by
  have h' : r <+: p := by simpa using h
  obtain ⟨t, rfl⟩ := h'
  exact ⟨t, rfl⟩

/-- Claim C3: for a truthy root with no trailing slash, every path strictly
inside the root (extending it at a `/` segment boundary) is mapped by
`Connection.getFileRelativeToWorkspace` to the POSIX-normalized suffix after
the root, and every path not inside the root — including sibling directories
sharing only a string prefix — is mapped to `undefined`. -/
theorem getFileRelativeToWorkspace_segment_aware :
    ∀ (root p : Str), root ≠ [] → root.getLast? ≠ some '/' →
      ((∃ t, p = root ++ '/' :: t) →
        Connection.getFileRelativeToWorkspace (some root) p =
          some (convertToPosixPath (p.drop root.length)))
      ∧ (p ≠ root → (¬∃ t, p = root ++ '/' :: t) →
        Connection.getFileRelativeToWorkspace (some root) p = none) := by
  intro root p hroot hslash
  have hempty : root.isEmpty = false := by
    cases root with
    | nil => exact absurd rfl hroot
    | cons a l => rfl
  constructor
  · rintro ⟨t, rfl⟩
    have hb : pathBeginsWith (root ++ '/' :: t) root = true := by
      unfold pathBeginsWith
      rw [if_neg hslash]
      have hp : (root ++ ['/']).isPrefixOf (root ++ '/' :: t) = true := by
        simp [List.append_assoc]
      simp [hp]
    simp [Connection.getFileRelativeToWorkspace, truthyStr, hempty,
      Connection.absPathInWorkspace, hb]
  · intro hne hnot
    have hb : pathBeginsWith p root = false := by
      unfold pathBeginsWith
      rw [if_neg hslash]
      have h1 : (p == root) = false := by simp [hne]
      have h2 : (root ++ ['/']).isPrefixOf p = false := by
        cases hval : (root ++ ['/']).isPrefixOf p with
        | false => rfl
        | true =>
            obtain ⟨t, ht⟩ := exists_append_of_isPrefixOf _ _ hval
            exact absurd ⟨t, by simpa [List.append_assoc] using ht⟩ hnot
      simp [h1, h2]
    simp [Connection.getFileRelativeToWorkspace, truthyStr, hempty,
      Connection.absPathInWorkspace, hb]

/-- Witness for `getFileRelativeToWorkspace_segment_aware` with root `/a/b`:
`/a/b/c` is strictly inside and maps to `/c`; the sibling `/a/bc` shares only
a string prefix and maps to `undefined`. -/
theorem getFileRelativeToWorkspace_segment_aware_witness :
    Connection.getFileRelativeToWorkspace (some ['/', 'a', '/', 'b'])
        ['/', 'a', '/', 'b', '/', 'c'] =
      some (convertToPosixPath ((['/', 'a', '/', 'b', '/', 'c'] : Str).drop
        (['/', 'a', '/', 'b'] : Str).length))
    ∧ Connection.getFileRelativeToWorkspace (some ['/', 'a', '/', 'b'])
        ['/', 'a', '/', 'b', 'c'] = none := by
  have h1 := getFileRelativeToWorkspace_segment_aware ['/', 'a', '/', 'b']
    ['/', 'a', '/', 'b', '/', 'c'] (by decide) (by decide)
  have h2 := getFileRelativeToWorkspace_segment_aware ['/', 'a', '/', 'b']
    ['/', 'a', '/', 'b', 'c'] (by decide) (by decide)
  refine ⟨h1.1 ⟨['c'], by decide⟩, h2.2 (by decide) ?_⟩
  rintro ⟨t, ht⟩
  simp at ht

/-- Claim C1, evaluated against the code: under the on-any-change policy a
document-changed event with one content change produces TWO
`refreshBrowsers()` calls (the constructor registers the identical handler
twice), not one; an empty-changes event or any other policy produces none. -/
theorem docChange_onAnyChange_broadcast_counts :
    Server.refreshBroadcastsForDocChange AutoRefreshPreview.onAnyChange
        { contentChanges := [()] } = 2
    ∧ Server.refreshBroadcastsForDocChange AutoRefreshPreview.onAnyChange
        { contentChanges := [] } = 0
    ∧ Server.refreshBroadcastsForDocChange AutoRefreshPreview.onSave
        { contentChanges := [()] } = 0
    ∧ Server.refreshBroadcastsForDocChange AutoRefreshPreview.off
        { contentChanges := [()] } = 0 :=
  ⟨rfl, rfl, rfl, rfl⟩

end LiveServer
